import Mathlib

/-!
Verification development for `app/backend/sample_indexer_datasource_skillset.py`.

The script is a linear sequence of configuration-object constructions and
remote SDK calls.  We embed it shallowly:

* each SDK model class used by the script becomes a Lean structure holding
  exactly the fields the script sets;
* the module-level environment loading (`os.environ[...]`, which raises
  `KeyError` when a variable is unset) becomes `loadModuleEnv` over an
  abstract environment `String → Option String`, returning `Except`;
* each remote SDK call becomes a constructor of `RemoteCall`; the remote
  service is an oracle `svc : RemoteCall → Except String String` returning
  either an error or the `name` of the resulting resource descriptor (the
  only piece of a response the script ever reads);
* `sample_indexer_workflow` threads the oracle through the call sequence of
  the script and returns the list of issued calls together with the final
  outcome (`.ok ()` on completion, the first raised error otherwise).

Note two peculiarities of the source that the embedding preserves exactly:
the trailing comma after the field list in `_create_index` (line 113), which
makes the Python value bound to `fields` a one-element tuple containing the
list, and the argument `deployment_id=AZURE_OPENAI_EMBEDDING_ENDPOINT`
(line 151) in `_create_skillset`, which passes the endpoint variable, not
the deployment variable, as the deployment id of the embedding skill.
-/

/-- Mirror of `InputFieldMappingEntry(name=..., source=...)`. -/
structure InputFieldMappingEntry where
  name : String
  source : String
deriving DecidableEq

/-- Mirror of `OutputFieldMappingEntry(name=..., target_name=...)`. -/
structure OutputFieldMappingEntry where
  name : String
  target_name : String
deriving DecidableEq

/-- The arguments the script passes to `SplitSkill`. -/
structure SplitSkillDef where
  text_split_mode : String
  context : String
  maximum_page_length : Nat
  page_overlap_length : Nat
  inputs : List InputFieldMappingEntry
  outputs : List OutputFieldMappingEntry
deriving DecidableEq

/-- The arguments the script passes to `AzureOpenAIEmbeddingSkill`. -/
structure AzureOpenAIEmbeddingSkillDef where
  context : String
  resource_uri : String
  api_key : String
  deployment_id : String
  model_name : String
  dimensions : Nat
  inputs : List InputFieldMappingEntry
  outputs : List OutputFieldMappingEntry
deriving DecidableEq

/-- A skill appearing in the `skills` list of the skillset. -/
inductive SearchIndexerSkill where
  | split (s : SplitSkillDef)
  | azureOpenAIEmbedding (s : AzureOpenAIEmbeddingSkillDef)
deriving DecidableEq

/-- Mirror of `SearchIndexerIndexProjectionSelector(...)`. -/
structure SearchIndexerIndexProjectionSelector where
  target_index_name : String
  parent_key_field_name : String
  source_context : String
  mappings : List InputFieldMappingEntry
deriving DecidableEq

/-- Values of `IndexProjectionMode` used by the script. -/
inductive IndexProjectionMode where
  | skipIndexingParentDocuments
  | includeIndexingParentDocuments
deriving DecidableEq

/-- Mirror of `SearchIndexerIndexProjectionsParameters(projection_mode=...)`. -/
structure SearchIndexerIndexProjectionsParameters where
  projection_mode : IndexProjectionMode
deriving DecidableEq

/-- Mirror of `SearchIndexerIndexProjections(selectors=..., parameters=...)`. -/
structure SearchIndexerIndexProjections where
  selectors : List SearchIndexerIndexProjectionSelector
  parameters : SearchIndexerIndexProjectionsParameters
deriving DecidableEq

/-- Mirror of `SearchIndexerSkillset(name=..., skills=..., index_projections=...)`. -/
structure SearchIndexerSkillset where
  name : String
  skills : List SearchIndexerSkill
  index_projections : SearchIndexerIndexProjections
deriving DecidableEq

/-- Mirror of `SearchIndexerDataContainer(name=...)`. -/
structure SearchIndexerDataContainer where
  name : String
deriving DecidableEq

/-- Mirror of `SearchIndexerDataSourceConnection(name=..., type=..., connection_string=..., container=...)`. -/
structure SearchIndexerDataSourceConnection where
  name : String
  type : String
  connection_string : String
  container : SearchIndexerDataContainer
deriving DecidableEq

/-- Mirror of `SearchableField(name=..., key=..., analyzer_name=..., sortable=...)`;
the script leaves `key`, `analyzer_name`, `sortable` at their defaults
(`False`, `None`, `False`) for `title` and `chunk`. -/
structure SearchableFieldDef where
  name : String
  key : Bool
  analyzer_name : Option String
  sortable : Bool
deriving DecidableEq

/-- Mirror of `SimpleField(name=..., type=..., filterable=...)`. -/
structure SimpleFieldDef where
  name : String
  type : String
  filterable : Bool
deriving DecidableEq

/-- Mirror of `SearchField(name=..., type=..., vector_search_dimensions=...,
vector_search_profile_name=..., stored=..., hidden=...)`. -/
structure SearchFieldDef where
  name : String
  type : String
  vector_search_dimensions : Nat
  vector_search_profile_name : String
  stored : Bool
  hidden : Bool
deriving DecidableEq

/-- A field definition appearing in the field list of the index. -/
inductive IndexField where
  | searchable (f : SearchableFieldDef)
  | simple (f : SimpleFieldDef)
  | search (f : SearchFieldDef)
deriving DecidableEq

/-- The Python value bound to the local variable `fields` in `_create_index`
and passed on to `SearchIndex`: either a list of field definitions, or a
tuple whose elements are such lists (Python builds a tuple from a trailing
comma; the only tuple this script ever builds contains a single list). -/
inductive PyFieldsVal where
  | list (fs : List IndexField)
  | tuple (vs : List (List IndexField))
deriving DecidableEq

/-- Mirror of `CorsOptions(allowed_origins=..., max_age_in_seconds=...)`. -/
structure CorsOptions where
  allowed_origins : List String
  max_age_in_seconds : Nat
deriving DecidableEq

/-- Mirror of `SearchIndex(name=..., fields=..., cors_options=...)`. -/
structure SearchIndex where
  name : String
  fields : PyFieldsVal
  cors_options : CorsOptions
deriving DecidableEq

/-- Mirror of `FieldMapping(source_field_name=..., target_field_name=...)`. -/
structure FieldMapping where
  source_field_name : String
  target_field_name : String
deriving DecidableEq

/-- Mirror of `SearchIndexer(name=..., data_source_name=..., target_index_name=...,
skillset_name=..., field_mappings=...)`. -/
structure SearchIndexer where
  name : String
  data_source_name : String
  target_index_name : String
  skillset_name : String
  field_mappings : List FieldMapping
deriving DecidableEq

/-- The module-level globals read from the environment (source lines 88-95). -/
structure ModuleEnv where
  service_endpoint : String
  key : String
  connection_string : String
  AZURE_OPENAI_EMBEDDING_ENDPOINT : String
  AZURE_OPENAI_EMBEDDING_DEPLOYMENT : String
  AZURE_OPENAI_EMBEDDING_MODEL : String
  AZURE_OPENAI_EMBEDDING_CREDENTIAL : String
deriving DecidableEq

/-- The seven environment variables the module reads with `os.environ[...]`,
in the order the module reads them. -/
def requiredEnvVars : List String :=
  ["AZURE_SEARCH_SERVICE_ENDPOINT", "AZURE_SEARCH_API_KEY",
   "AZURE_STORAGE_CONNECTION_STRING", "AZURE_OPENAI_ENDPOINT",
   "AZURE_OPENAI_EMBEDDING_DEPLOYMENT", "AZURE_OPENAI_EMBEDDING_MODEL",
   "AZURE_OPENAI_EMBEDDING_CREDENTIAL"]

/-- Module initialization: `os.environ["X"]` for each of the seven variables,
in source order; the first missing variable raises `KeyError` (modelled as
`Except.error`), so no later statement runs. -/
def loadModuleEnv (env : String → Option String) : Except String ModuleEnv :=
  match env "AZURE_SEARCH_SERVICE_ENDPOINT" with
  | none => .error "KeyError: AZURE_SEARCH_SERVICE_ENDPOINT"
  | some service_endpoint =>
  match env "AZURE_SEARCH_API_KEY" with
  | none => .error "KeyError: AZURE_SEARCH_API_KEY"
  | some key =>
  match env "AZURE_STORAGE_CONNECTION_STRING" with
  | none => .error "KeyError: AZURE_STORAGE_CONNECTION_STRING"
  | some connection_string =>
  match env "AZURE_OPENAI_ENDPOINT" with
  | none => .error "KeyError: AZURE_OPENAI_ENDPOINT"
  | some endpoint =>
  match env "AZURE_OPENAI_EMBEDDING_DEPLOYMENT" with
  | none => .error "KeyError: AZURE_OPENAI_EMBEDDING_DEPLOYMENT"
  | some deployment =>
  match env "AZURE_OPENAI_EMBEDDING_MODEL" with
  | none => .error "KeyError: AZURE_OPENAI_EMBEDDING_MODEL"
  | some model =>
  match env "AZURE_OPENAI_EMBEDDING_CREDENTIAL" with
  | none => .error "KeyError: AZURE_OPENAI_EMBEDDING_CREDENTIAL"
  | some credential =>
  .ok { service_endpoint := service_endpoint, key := key,
        connection_string := connection_string,
        AZURE_OPENAI_EMBEDDING_ENDPOINT := endpoint,
        AZURE_OPENAI_EMBEDDING_DEPLOYMENT := deployment,
        AZURE_OPENAI_EMBEDDING_MODEL := model,
        AZURE_OPENAI_EMBEDDING_CREDENTIAL := credential }

/-- The index object built in `_create_index` (source lines 97-117).  The
local binding `fields=[...],` on lines 101-113 carries a trailing comma, so
the Python value bound to `fields` — and passed to `SearchIndex` — is a
one-element tuple containing the field list. -/
def hotelIndexFields : List IndexField :=
  [IndexField.searchable
     { name := "chunk_id", key := true, analyzer_name := some "keyword", sortable := true },
   IndexField.simple
     { name := "parent_id", type := "Edm.String", filterable := true },
   IndexField.searchable
     { name := "title", key := false, analyzer_name := none, sortable := false },
   IndexField.searchable
     { name := "chunk", key := false, analyzer_name := none, sortable := false },
   IndexField.search
     { name := "text_vector", type := "Collection(Edm.Single)",
       vector_search_dimensions := 1536, vector_search_profile_name := "vp",
       stored := true, hidden := false }]

/-- The `SearchIndex` value constructed by `_create_index` before it is sent
to `index_client.create_index`. -/
def createIndexObject : SearchIndex :=
  let name := "hotel-index"
  let fields : PyFieldsVal := PyFieldsVal.tuple [hotelIndexFields]
  let cors_options : CorsOptions := { allowed_origins := ["*"], max_age_in_seconds := 60 }
  { name := name, fields := fields, cors_options := cors_options }

/-- The `SearchIndexerDataSourceConnection` value constructed by
`_create_datasource` (source lines 123-130). -/
def createDatasourceObject (e : ModuleEnv) : SearchIndexerDataSourceConnection :=
  let container : SearchIndexerDataContainer := { name := "documentation" }
  { name := "openairagaudio", type := "azureblob",
    connection_string := e.connection_string, container := container }

/-- The `SearchIndexerSkillset` value constructed by `_create_skillset`
(source lines 135-173).  Line 151 of the source reads
`deployment_id=AZURE_OPENAI_EMBEDDING_ENDPOINT`: the endpoint variable, not
the deployment variable, is passed as the deployment id. -/
def createSkillsetObject (e : ModuleEnv) : SearchIndexerSkillset :=
  { name := "testtskillset",
    skills :=
      [SearchIndexerSkill.split
         { text_split_mode := "pages", context := "/document",
           maximum_page_length := 2000, page_overlap_length := 500,
           inputs := [{ name := "text", source := "/document/content" }],
           outputs := [{ name := "textItems", target_name := "pages" }] },
       SearchIndexerSkill.azureOpenAIEmbedding
         { context := "/document/pages/*",
           resource_uri := e.AZURE_OPENAI_EMBEDDING_ENDPOINT,
           api_key := e.AZURE_OPENAI_EMBEDDING_CREDENTIAL,
           deployment_id := e.AZURE_OPENAI_EMBEDDING_ENDPOINT,
           model_name := e.AZURE_OPENAI_EMBEDDING_MODEL,
           dimensions := 1536,
           inputs := [{ name := "text", source := "/document/pages/*" }],
           outputs := [{ name := "embedding", target_name := "text_vector" }] }],
    index_projections :=
      { selectors :=
          [{ target_index_name := "gptkbindex",
             parent_key_field_name := "parent_id",
             source_context := "/document/pages/*",
             mappings :=
               [{ name := "chunk", source := "/document/pages/*" },
                { name := "text_vector", source := "/document/pages/*/text_vector" },
                { name := "title", source := "/document/metadata_storage_name" }] }],
        parameters := { projection_mode := IndexProjectionMode.skipIndexingParentDocuments } } }

/-- The `SearchIndexer` value constructed in `sample_indexer_workflow`
(source lines 193-200) from the names returned by the skillset and
datasource creation calls. -/
def createIndexerObject (ds_name skillset_name : String) : SearchIndexer :=
  { name := "hotel-data-indexer",
    data_source_name := ds_name,
    target_index_name := "gptkbindex",
    skillset_name := skillset_name,
    field_mappings :=
      [{ source_field_name := "metadata_storage_name", target_field_name := "title" }] }

/-- A remote SDK call issued by the script, with the payload it sends. -/
inductive RemoteCall where
  | create_index (index : SearchIndex)
  | create_data_source_connection (ds : SearchIndexerDataSourceConnection)
  | create_skillset (ss : SearchIndexerSkillset)
  | create_indexer (ix : SearchIndexer)
  | get_indexer (name : String)
  | run_indexer (name : String)
deriving DecidableEq

/-- Boolean classifiers on remote calls, one per call kind. -/
def RemoteCall.isCreateIndex : RemoteCall → Bool
  | .create_index _ => true
  | _ => false

def RemoteCall.isCreateDataSource : RemoteCall → Bool
  | .create_data_source_connection _ => true
  | _ => false

def RemoteCall.isCreateSkillset : RemoteCall → Bool
  | .create_skillset _ => true
  | _ => false

def RemoteCall.isCreateIndexer : RemoteCall → Bool
  | .create_indexer _ => true
  | _ => false

def RemoteCall.isRunIndexer : RemoteCall → Bool
  | .run_indexer _ => true
  | _ => false

/-- The skillset-creation call issued by `_create_skillset`. -/
def cS (e : ModuleEnv) : RemoteCall := .create_skillset (createSkillsetObject e)

/-- The datasource-creation call issued by `_create_datasource`. -/
def cD (e : ModuleEnv) : RemoteCall := .create_data_source_connection (createDatasourceObject e)

/-- The indexer-creation call issued by `sample_indexer_workflow`. -/
def cI (ds_name skillset_name : String) : RemoteCall :=
  .create_indexer (createIndexerObject ds_name skillset_name)

/-- The `get_indexer` call issued by `sample_indexer_workflow`. -/
def gI : RemoteCall := .get_indexer "hotel-data-indexer"

/-- The `run_indexer` call issued by `sample_indexer_workflow`. -/
def rI (n : String) : RemoteCall := .run_indexer n

/-- The body of `sample_indexer_workflow` (source lines 178-221), run against a remote
service modelled as an oracle `svc`.  On success the oracle returns the
`name` attribute of the resulting descriptor, the only part of any response
the script reads; an oracle error models a raised SDK exception, which the
script does not catch, so execution stops at the first error.  The result is
the ordered list of remote calls issued together with the final outcome.
The call to `_create_index` is commented out in the source (line 187) and so
issues no call here.  -/
def sample_indexer_workflow (e : ModuleEnv) (svc : RemoteCall → Except String String) :
    List RemoteCall × Except String Unit :=
  match svc (cS e) with
  | .error err => ([cS e], .error err)
  | .ok skillset_name =>
    match svc (cD e) with
    | .error err => ([cS e, cD e], .error err)
    | .ok ds_name =>
      match svc (cI ds_name skillset_name) with
      | .error err => ([cS e, cD e, cI ds_name skillset_name], .error err)
      | .ok _ =>
        match svc gI with
        | .error err => ([cS e, cD e, cI ds_name skillset_name, gI], .error err)
        | .ok result_name =>
          match svc (rI result_name) with
          | .error err =>
              ([cS e, cD e, cI ds_name skillset_name, gI, rI result_name], .error err)
          | .ok _ =>
              ([cS e, cD e, cI ds_name skillset_name, gI, rI result_name], .ok ())

/-- The whole script: module initialization (environment loading) followed by
`sample_indexer_workflow`.  A `KeyError` during initialization terminates the
script before any remote call is issued. -/
def run_script (env : String → Option String) (svc : RemoteCall → Except String String) :
    List RemoteCall × Except String Unit :=
  match loadModuleEnv env with
  | .error err => ([], .error err)
  | .ok e => sample_indexer_workflow e svc

/-- The embedding skills of a skillset, in order. -/
def SearchIndexerSkillset.embeddingSkills (s : SearchIndexerSkillset) :
    List AzureOpenAIEmbeddingSkillDef :=
  s.skills.filterMap fun sk =>
    match sk with
    | .azureOpenAIEmbedding d => some d
    | _ => none

/-- Holds when `p` occurs at a strictly earlier position than every occurrence of `q`
in the trace `t`. -/
def occursBeforeIn (t : List RemoteCall) (p q : RemoteCall → Bool) : Prop :=
  ∀ i, (hi : i < t.length) → q t[i] = true →
    ∃ j, ∃ hj : j < t.length, j < i ∧ p t[j] = true

/-- Like `occursBeforeIn`, but the earlier call must also have completed
successfully against the oracle `svc`. -/
def completedBeforeIn (svc : RemoteCall → Except String String)
    (t : List RemoteCall) (p q : RemoteCall → Bool) : Prop :=
  ∀ i, (hi : i < t.length) → q t[i] = true →
    ∃ j, ∃ hj : j < t.length, j < i ∧ p t[j] = true ∧
      ∃ s, svc t[j] = .ok s

/-- A fixed example environment used for concrete evaluations. -/
def env0 : ModuleEnv :=
  { service_endpoint := "https://search.example.net",
    key := "search-admin-key",
    connection_string := "DefaultEndpointsProtocol=https;AccountName=acct",
    AZURE_OPENAI_EMBEDDING_ENDPOINT := "https://aoai.example.net",
    AZURE_OPENAI_EMBEDDING_DEPLOYMENT := "text-embedding-3-large",
    AZURE_OPENAI_EMBEDDING_MODEL := "text-embedding-3-large-model",
    AZURE_OPENAI_EMBEDDING_CREDENTIAL := "aoai-key" }

/-- An oracle on which every call succeeds, answering each create call with
the name of the submitted resource. -/
def svcOK : RemoteCall → Except String String
  | .create_index i => .ok i.name
  | .create_data_source_connection d => .ok d.name
  | .create_skillset s => .ok s.name
  | .create_indexer i => .ok i.name
  | .get_indexer n => .ok n
  | .run_indexer _ => .ok ""

/-- An oracle on which every call fails with an authentication error. -/
def svcFail : RemoteCall → Except String String :=
  fun _ => .error "Unauthorized"

/-- An environment in which only the service endpoint is set; in particular
the API key variable is unset. -/
def envMissingKey : String → Option String :=
  fun s => if s = "AZURE_SEARCH_SERVICE_ENDPOINT"
           then some "https://search.example.net" else none

/-- An environment identical to `env0` except for the embedding deployment
variable. -/
def env0d : ModuleEnv :=
  { env0 with AZURE_OPENAI_EMBEDDING_DEPLOYMENT := "other-deployment" }

/-- Case analysis of a run of `sample_indexer_workflow`: the trace and
outcome are determined by where (if anywhere) the oracle first fails, and
the trace is always an initial segment of the five-call sequence. -/
theorem workflow_shape (e : ModuleEnv) (svc : RemoteCall → Except String String) :
    (∃ err, svc (cS e) = .error err ∧
       sample_indexer_workflow e svc = ([cS e], .error err)) ∨
    (∃ ssn err, svc (cS e) = .ok ssn ∧ svc (cD e) = .error err ∧
       sample_indexer_workflow e svc = ([cS e, cD e], .error err)) ∨
    (∃ ssn dsn err, svc (cS e) = .ok ssn ∧ svc (cD e) = .ok dsn ∧
       svc (cI dsn ssn) = .error err ∧
       sample_indexer_workflow e svc = ([cS e, cD e, cI dsn ssn], .error err)) ∨
    (∃ ssn dsn r err, svc (cS e) = .ok ssn ∧ svc (cD e) = .ok dsn ∧
       svc (cI dsn ssn) = .ok r ∧ svc gI = .error err ∧
       sample_indexer_workflow e svc = ([cS e, cD e, cI dsn ssn, gI], .error err)) ∨
    (∃ ssn dsn r rn err, svc (cS e) = .ok ssn ∧ svc (cD e) = .ok dsn ∧
       svc (cI dsn ssn) = .ok r ∧ svc gI = .ok rn ∧ svc (rI rn) = .error err ∧
       sample_indexer_workflow e svc = ([cS e, cD e, cI dsn ssn, gI, rI rn], .error err)) ∨
    (∃ ssn dsn r rn r2, svc (cS e) = .ok ssn ∧ svc (cD e) = .ok dsn ∧
       svc (cI dsn ssn) = .ok r ∧ svc gI = .ok rn ∧ svc (rI rn) = .ok r2 ∧
       sample_indexer_workflow e svc = ([cS e, cD e, cI dsn ssn, gI, rI rn], .ok ())) := by
  cases h1 : svc (cS e) with
  | error err =>
      refine Or.inl ⟨err, rfl, ?_⟩
      simp [sample_indexer_workflow, h1]
  | ok ssn =>
      cases h2 : svc (cD e) with
      | error err =>
          refine Or.inr (Or.inl ⟨ssn, err, rfl, rfl, ?_⟩)
          simp [sample_indexer_workflow, h1, h2]
      | ok dsn =>
          cases h3 : svc (cI dsn ssn) with
          | error err =>
              refine Or.inr (Or.inr (Or.inl ⟨ssn, dsn, err, rfl, rfl, h3, ?_⟩))
              simp [sample_indexer_workflow, h1, h2, h3]
          | ok r =>
              cases h4 : svc gI with
              | error err =>
                  refine Or.inr (Or.inr (Or.inr (Or.inl
                    ⟨ssn, dsn, r, err, rfl, rfl, h3, rfl, ?_⟩)))
                  simp [sample_indexer_workflow, h1, h2, h3, h4]
              | ok rn =>
                  cases h5 : svc (rI rn) with
                  | error err =>
                      refine Or.inr (Or.inr (Or.inr (Or.inr (Or.inl
                        ⟨ssn, dsn, r, rn, err, rfl, rfl, h3, rfl, h5, ?_⟩))))
                      simp [sample_indexer_workflow, h1, h2, h3, h4, h5]
                  | ok r2 =>
                      refine Or.inr (Or.inr (Or.inr (Or.inr (Or.inr
                        ⟨ssn, dsn, r, rn, r2, rfl, rfl, h3, rfl, h5, ?_⟩))))
                      simp [sample_indexer_workflow, h1, h2, h3, h4, h5]

/-- C1: the embedding skill constructed by `_create_skillset` does not take
its deployment id from `AZURE_OPENAI_EMBEDDING_DEPLOYMENT`; evaluated at the
concrete environment `env0`, the resource URI, model name and API
key come from the claimed variables, but its deployment id equals the value
of `AZURE_OPENAI_ENDPOINT` and differs from the value of
`AZURE_OPENAI_EMBEDDING_DEPLOYMENT`. -/
theorem c1_deployment_id_is_endpoint :
    ((createSkillsetObject env0).embeddingSkills.map fun s => s.resource_uri) =
      [env0.AZURE_OPENAI_EMBEDDING_ENDPOINT] ∧
    ((createSkillsetObject env0).embeddingSkills.map fun s => s.model_name) =
      [env0.AZURE_OPENAI_EMBEDDING_MODEL] ∧
    ((createSkillsetObject env0).embeddingSkills.map fun s => s.api_key) =
      [env0.AZURE_OPENAI_EMBEDDING_CREDENTIAL] ∧
    ((createSkillsetObject env0).embeddingSkills.map fun s => s.deployment_id) =
      [env0.AZURE_OPENAI_EMBEDDING_ENDPOINT] ∧
    ((createSkillsetObject env0).embeddingSkills.map fun s => s.deployment_id) ≠
      [env0.AZURE_OPENAI_EMBEDDING_DEPLOYMENT] := by
  refine ⟨rfl, rfl, rfl, rfl, ?_⟩
  decide

/-- C2: for every environment, the skillset built by `_create_skillset` has
exactly two skills — first the splitting skill (mode "pages", maximum page
length 2000, overlap 500, input `/document/content`, output `textItems`
targeted to "pages"), then an embedding skill with context
`/document/pages/*` whose output is targeted to `text_vector` — and one
index-projection selector mapping chunk, text_vector and title (from the
storage name) keyed to the parent via `parent_id`, with projection mode set
to skip indexing parent documents. -/
theorem c2_skillset_shape (e : ModuleEnv) :
    ∃ emb : AzureOpenAIEmbeddingSkillDef,
      (createSkillsetObject e).skills =
        [SearchIndexerSkill.split
           { text_split_mode := "pages", context := "/document",
             maximum_page_length := 2000, page_overlap_length := 500,
             inputs := [{ name := "text", source := "/document/content" }],
             outputs := [{ name := "textItems", target_name := "pages" }] },
         SearchIndexerSkill.azureOpenAIEmbedding emb] ∧
      emb.context = "/document/pages/*" ∧
      emb.inputs = [{ name := "text", source := "/document/pages/*" }] ∧
      emb.outputs = [{ name := "embedding", target_name := "text_vector" }] ∧
      (createSkillsetObject e).index_projections.selectors =
        [{ target_index_name := "gptkbindex",
           parent_key_field_name := "parent_id",
           source_context := "/document/pages/*",
           mappings := [{ name := "chunk", source := "/document/pages/*" },
                        { name := "text_vector", source := "/document/pages/*/text_vector" },
                        { name := "title", source := "/document/metadata_storage_name" }] }] ∧
      (createSkillsetObject e).index_projections.parameters.projection_mode =
        IndexProjectionMode.skipIndexingParentDocuments :=
  ⟨_, rfl, rfl, rfl, rfl, rfl, rfl⟩

/-- C2 witness: the skillset shape property instantiated at the concrete
environment `env0`. -/
theorem c2_skillset_shape_witness :
    ∃ emb : AzureOpenAIEmbeddingSkillDef,
      (createSkillsetObject env0).skills =
        [SearchIndexerSkill.split
           { text_split_mode := "pages", context := "/document",
             maximum_page_length := 2000, page_overlap_length := 500,
             inputs := [{ name := "text", source := "/document/content" }],
             outputs := [{ name := "textItems", target_name := "pages" }] },
         SearchIndexerSkill.azureOpenAIEmbedding emb] ∧
      emb.context = "/document/pages/*" ∧
      emb.inputs = [{ name := "text", source := "/document/pages/*" }] ∧
      emb.outputs = [{ name := "embedding", target_name := "text_vector" }] ∧
      (createSkillsetObject env0).index_projections.selectors =
        [{ target_index_name := "gptkbindex",
           parent_key_field_name := "parent_id",
           source_context := "/document/pages/*",
           mappings := [{ name := "chunk", source := "/document/pages/*" },
                        { name := "text_vector", source := "/document/pages/*/text_vector" },
                        { name := "title", source := "/document/metadata_storage_name" }] }] ∧
      (createSkillsetObject env0).index_projections.parameters.projection_mode =
        IndexProjectionMode.skipIndexingParentDocuments :=
  c2_skillset_shape env0

/-- C4: the index built by `_create_index` has the claimed name, CORS policy
and five field definitions, but because of the trailing comma on the
`fields=[...]` binding, the value passed as the fields of the index is a
one-element tuple containing the field list, not the field list itself. -/
theorem c4_fields_is_tuple :
    createIndexObject.name = "hotel-index" ∧
    createIndexObject.cors_options =
      { allowed_origins := ["*"], max_age_in_seconds := 60 } ∧
    hotelIndexFields.length = 5 ∧
    createIndexObject.fields = PyFieldsVal.tuple [hotelIndexFields] ∧
    createIndexObject.fields ≠ PyFieldsVal.list hotelIndexFields := by
  refine ⟨rfl, rfl, rfl, rfl, ?_⟩
  decide

/-- C9: the target index name of the indexer and the target index name of
the skillset projection selector are both "gptkbindex", for every environment
and every pair of names returned by the earlier creation calls. -/
theorem c9_target_index_agreement (e : ModuleEnv) (ds_name skillset_name : String) :
    (createIndexerObject ds_name skillset_name).target_index_name = "gptkbindex" ∧
    ((createSkillsetObject e).index_projections.selectors.map
        fun s => s.target_index_name) = ["gptkbindex"] :=
  ⟨rfl, rfl⟩

/-- C9 witness: the agreement instantiated at the concrete environment
`env0` and the resource names returned by `svcOK`. -/
theorem c9_target_index_agreement_witness :
    (createIndexerObject "openairagaudio" "testtskillset").target_index_name = "gptkbindex" ∧
    ((createSkillsetObject env0).index_projections.selectors.map
        fun s => s.target_index_name) = ["gptkbindex"] :=
  c9_target_index_agreement env0 "openairagaudio" "testtskillset"

/-- C10: two environments that agree on everything except
`AZURE_OPENAI_EMBEDDING_DEPLOYMENT` yield identical datasource and skillset
objects and an identical workflow run (same calls with the same payloads,
including the indexer payload, and same outcome) against any oracle. -/
theorem c10_deployment_noninterference (e1 e2 : ModuleEnv)
    (hse : e1.service_endpoint = e2.service_endpoint)
    (hk : e1.key = e2.key)
    (hcs : e1.connection_string = e2.connection_string)
    (hep : e1.AZURE_OPENAI_EMBEDDING_ENDPOINT = e2.AZURE_OPENAI_EMBEDDING_ENDPOINT)
    (hm : e1.AZURE_OPENAI_EMBEDDING_MODEL = e2.AZURE_OPENAI_EMBEDDING_MODEL)
    (hcr : e1.AZURE_OPENAI_EMBEDDING_CREDENTIAL = e2.AZURE_OPENAI_EMBEDDING_CREDENTIAL)
    (svc : RemoteCall → Except String String) :
    createDatasourceObject e1 = createDatasourceObject e2 ∧
    createSkillsetObject e1 = createSkillsetObject e2 ∧
    sample_indexer_workflow e1 svc = sample_indexer_workflow e2 svc := by
  have hds : createDatasourceObject e1 = createDatasourceObject e2 := by
    simp [createDatasourceObject, hcs]
  have hss : createSkillsetObject e1 = createSkillsetObject e2 := by
    simp [createSkillsetObject, hep, hm, hcr]
  have hcS : cS e1 = cS e2 := by simp [cS, hss]
  have hcD : cD e1 = cD e2 := by simp [cD, hds]
  refine ⟨hds, hss, ?_⟩
  simp only [sample_indexer_workflow, hcS, hcD]

/-- C10 witness: `env0` and `env0d` differ exactly in the deployment
variable, and the constructed objects and the full run against `svcOK`
coincide. -/
theorem c10_deployment_noninterference_witness :
    env0.AZURE_OPENAI_EMBEDDING_DEPLOYMENT ≠ env0d.AZURE_OPENAI_EMBEDDING_DEPLOYMENT ∧
    createDatasourceObject env0 = createDatasourceObject env0d ∧
    createSkillsetObject env0 = createSkillsetObject env0d ∧
    sample_indexer_workflow env0 svcOK = sample_indexer_workflow env0d svcOK :=
  ⟨by decide, c10_deployment_noninterference env0 env0d rfl rfl rfl rfl rfl rfl svcOK⟩

/-- C3: in every run of `sample_indexer_workflow`, any issued
indexer-creation call is preceded by a skillset-creation call and a
datasource-creation call that both completed successfully, and any issued
run-indexer call is preceded by a successfully completed indexer-creation
call; hence the indexer is never created before skillset and datasource
exist, and never run before it is created. -/
theorem c3_order (e : ModuleEnv) (svc : RemoteCall → Except String String) :
    completedBeforeIn svc (sample_indexer_workflow e svc).1
      RemoteCall.isCreateSkillset RemoteCall.isCreateIndexer ∧
    completedBeforeIn svc (sample_indexer_workflow e svc).1
      RemoteCall.isCreateDataSource RemoteCall.isCreateIndexer ∧
    completedBeforeIn svc (sample_indexer_workflow e svc).1
      RemoteCall.isCreateIndexer RemoteCall.isRunIndexer := by
  rcases workflow_shape e svc with
      ⟨err, h1, hw⟩ | ⟨ssn, err, h1, h2, hw⟩ | ⟨ssn, dsn, err, h1, h2, h3, hw⟩ |
      ⟨ssn, dsn, r, err, h1, h2, h3, h4, hw⟩ |
      ⟨ssn, dsn, r, rn, err, h1, h2, h3, h4, h5, hw⟩ |
      ⟨ssn, dsn, r, rn, r2, h1, h2, h3, h4, h5, hw⟩
  · rw [hw]; dsimp only
    refine ⟨?_, ?_, ?_⟩ <;>
      (intro i hi hq
       simp only [List.length_cons, List.length_nil] at hi
       interval_cases i <;>
         exact absurd hq (by simp [cS,
           RemoteCall.isCreateIndexer, RemoteCall.isRunIndexer]))
  · rw [hw]; dsimp only
    refine ⟨?_, ?_, ?_⟩ <;>
      (intro i hi hq
       simp only [List.length_cons, List.length_nil] at hi
       interval_cases i <;>
         exact absurd hq (by simp [cS, cD,
           RemoteCall.isCreateIndexer, RemoteCall.isRunIndexer]))
  · rw [hw]; dsimp only
    refine ⟨?_, ?_, ?_⟩
    · intro i hi hq
      simp only [List.length_cons, List.length_nil] at hi
      interval_cases i
      · exact absurd hq (by simp [cS, RemoteCall.isCreateIndexer])
      · exact absurd hq (by simp [cD, RemoteCall.isCreateIndexer])
      · exact ⟨0, by simp, by omega, rfl, ssn, h1⟩
    · intro i hi hq
      simp only [List.length_cons, List.length_nil] at hi
      interval_cases i
      · exact absurd hq (by simp [cS, RemoteCall.isCreateIndexer])
      · exact absurd hq (by simp [cD, RemoteCall.isCreateIndexer])
      · exact ⟨1, by simp, by omega, rfl, dsn, h2⟩
    · intro i hi hq
      simp only [List.length_cons, List.length_nil] at hi
      interval_cases i <;>
        exact absurd hq (by simp [cS, cD, cI, RemoteCall.isRunIndexer])
  · rw [hw]; dsimp only
    refine ⟨?_, ?_, ?_⟩
    · intro i hi hq
      simp only [List.length_cons, List.length_nil] at hi
      interval_cases i
      · exact absurd hq (by simp [cS, RemoteCall.isCreateIndexer])
      · exact absurd hq (by simp [cD, RemoteCall.isCreateIndexer])
      · exact ⟨0, by simp, by omega, rfl, ssn, h1⟩
      · exact absurd hq (by simp [gI, RemoteCall.isCreateIndexer])
    · intro i hi hq
      simp only [List.length_cons, List.length_nil] at hi
      interval_cases i
      · exact absurd hq (by simp [cS, RemoteCall.isCreateIndexer])
      · exact absurd hq (by simp [cD, RemoteCall.isCreateIndexer])
      · exact ⟨1, by simp, by omega, rfl, dsn, h2⟩
      · exact absurd hq (by simp [gI, RemoteCall.isCreateIndexer])
    · intro i hi hq
      simp only [List.length_cons, List.length_nil] at hi
      interval_cases i <;>
        exact absurd hq (by simp [cS, cD, cI, gI, RemoteCall.isRunIndexer])
  · rw [hw]; dsimp only
    refine ⟨?_, ?_, ?_⟩
    · intro i hi hq
      simp only [List.length_cons, List.length_nil] at hi
      interval_cases i
      · exact absurd hq (by simp [cS, RemoteCall.isCreateIndexer])
      · exact absurd hq (by simp [cD, RemoteCall.isCreateIndexer])
      · exact ⟨0, by simp, by omega, rfl, ssn, h1⟩
      · exact absurd hq (by simp [gI, RemoteCall.isCreateIndexer])
      · exact absurd hq (by simp [rI, RemoteCall.isCreateIndexer])
    · intro i hi hq
      simp only [List.length_cons, List.length_nil] at hi
      interval_cases i
      · exact absurd hq (by simp [cS, RemoteCall.isCreateIndexer])
      · exact absurd hq (by simp [cD, RemoteCall.isCreateIndexer])
      · exact ⟨1, by simp, by omega, rfl, dsn, h2⟩
      · exact absurd hq (by simp [gI, RemoteCall.isCreateIndexer])
      · exact absurd hq (by simp [rI, RemoteCall.isCreateIndexer])
    · intro i hi hq
      simp only [List.length_cons, List.length_nil] at hi
      interval_cases i
      · exact absurd hq (by simp [cS, RemoteCall.isRunIndexer])
      · exact absurd hq (by simp [cD, RemoteCall.isRunIndexer])
      · exact absurd hq (by simp [cI, RemoteCall.isRunIndexer])
      · exact absurd hq (by simp [gI, RemoteCall.isRunIndexer])
      · exact ⟨2, by simp, by omega, rfl, r, h3⟩
  · rw [hw]; dsimp only
    refine ⟨?_, ?_, ?_⟩
    · intro i hi hq
      simp only [List.length_cons, List.length_nil] at hi
      interval_cases i
      · exact absurd hq (by simp [cS, RemoteCall.isCreateIndexer])
      · exact absurd hq (by simp [cD, RemoteCall.isCreateIndexer])
      · exact ⟨0, by simp, by omega, rfl, ssn, h1⟩
      · exact absurd hq (by simp [gI, RemoteCall.isCreateIndexer])
      · exact absurd hq (by simp [rI, RemoteCall.isCreateIndexer])
    · intro i hi hq
      simp only [List.length_cons, List.length_nil] at hi
      interval_cases i
      · exact absurd hq (by simp [cS, RemoteCall.isCreateIndexer])
      · exact absurd hq (by simp [cD, RemoteCall.isCreateIndexer])
      · exact ⟨1, by simp, by omega, rfl, dsn, h2⟩
      · exact absurd hq (by simp [gI, RemoteCall.isCreateIndexer])
      · exact absurd hq (by simp [rI, RemoteCall.isCreateIndexer])
    · intro i hi hq
      simp only [List.length_cons, List.length_nil] at hi
      interval_cases i
      · exact absurd hq (by simp [cS, RemoteCall.isRunIndexer])
      · exact absurd hq (by simp [cD, RemoteCall.isRunIndexer])
      · exact absurd hq (by simp [cI, RemoteCall.isRunIndexer])
      · exact absurd hq (by simp [gI, RemoteCall.isRunIndexer])
      · exact ⟨2, by simp, by omega, rfl, r, h3⟩

/-- C3 witness: the ordering property instantiated at the concrete
environment `env0` and the all-succeeding oracle `svcOK`. -/
theorem c3_order_witness :
    completedBeforeIn svcOK (sample_indexer_workflow env0 svcOK).1
      RemoteCall.isCreateSkillset RemoteCall.isCreateIndexer ∧
    completedBeforeIn svcOK (sample_indexer_workflow env0 svcOK).1
      RemoteCall.isCreateDataSource RemoteCall.isCreateIndexer ∧
    completedBeforeIn svcOK (sample_indexer_workflow env0 svcOK).1
      RemoteCall.isCreateIndexer RemoteCall.isRunIndexer :=
  c3_order env0 svcOK

/-- C5 counterexample: in the complete run at `env0` against the
all-succeeding oracle, the index-creation call is issued zero times, not
once — `_create_index` is commented out — refuting the claim that all four
creation calls are issued exactly once per run. -/
theorem c5_counterexample :
    (sample_indexer_workflow env0 svcOK).2 = Except.ok () ∧
    (sample_indexer_workflow env0 svcOK).1.countP RemoteCall.isCreateIndex ≠ 1 ∧
    (sample_indexer_workflow env0 svcOK).1.countP RemoteCall.isCreateIndex = 0 :=
  ⟨rfl, by decide, rfl⟩

/-- C5 (amended): in every run that completes successfully, the
skillset-creation, datasource-creation and indexer-creation calls are each
issued exactly once, and the index-creation call is never issued. -/
theorem c5_creation_counts (e : ModuleEnv) (svc : RemoteCall → Except String String)
    (h : (sample_indexer_workflow e svc).2 = .ok ()) :
    (sample_indexer_workflow e svc).1.countP RemoteCall.isCreateIndex = 0 ∧
    (sample_indexer_workflow e svc).1.countP RemoteCall.isCreateSkillset = 1 ∧
    (sample_indexer_workflow e svc).1.countP RemoteCall.isCreateDataSource = 1 ∧
    (sample_indexer_workflow e svc).1.countP RemoteCall.isCreateIndexer = 1 := by
  rcases workflow_shape e svc with
      ⟨err, h1, hw⟩ | ⟨ssn, err, h1, h2, hw⟩ | ⟨ssn, dsn, err, h1, h2, h3, hw⟩ |
      ⟨ssn, dsn, r, err, h1, h2, h3, h4, hw⟩ |
      ⟨ssn, dsn, r, rn, err, h1, h2, h3, h4, h5, hw⟩ |
      ⟨ssn, dsn, r, rn, r2, h1, h2, h3, h4, h5, hw⟩
  · rw [hw] at h; exact absurd h (by simp)
  · rw [hw] at h; exact absurd h (by simp)
  · rw [hw] at h; exact absurd h (by simp)
  · rw [hw] at h; exact absurd h (by simp)
  · rw [hw] at h; exact absurd h (by simp)
  · rw [hw]
    refine ⟨?_, ?_, ?_, ?_⟩ <;>
      simp [List.countP_cons, List.countP_nil, cS, cD, cI, gI, rI,
        RemoteCall.isCreateIndex, RemoteCall.isCreateSkillset,
        RemoteCall.isCreateDataSource, RemoteCall.isCreateIndexer]

/-- C5 (amended) witness: the counts instantiated at the concrete
environment `env0` and the all-succeeding oracle `svcOK`. -/
theorem c5_creation_counts_witness :
    (sample_indexer_workflow env0 svcOK).2 = Except.ok () ∧
    ((sample_indexer_workflow env0 svcOK).1.countP RemoteCall.isCreateIndex = 0 ∧
     (sample_indexer_workflow env0 svcOK).1.countP RemoteCall.isCreateSkillset = 1 ∧
     (sample_indexer_workflow env0 svcOK).1.countP RemoteCall.isCreateDataSource = 1 ∧
     (sample_indexer_workflow env0 svcOK).1.countP RemoteCall.isCreateIndexer = 1) :=
  ⟨rfl, c5_creation_counts env0 svcOK rfl⟩

/-- C6 counterexample: in the run at `env0` against the all-succeeding
oracle, the first issued call is the skillset creation, so it is false that
a datasource-creation call precedes every skillset-creation call — the
script performs skillset definition before datasource definition. -/
theorem c6_counterexample :
    ¬ occursBeforeIn (sample_indexer_workflow env0 svcOK).1
        RemoteCall.isCreateDataSource RemoteCall.isCreateSkillset := by
  intro hcon
  obtain ⟨j, hj, hjlt, -⟩ := hcon 0 (by decide) (by decide)
  omega

/-- C6 (amended): in every run, every issued datasource-creation call is
preceded by a skillset-creation call, and every issued indexer-creation
call is preceded by a datasource-creation call: the workflow performs
skillset definition before datasource definition before indexer
definition. -/
theorem c6_order_amended (e : ModuleEnv) (svc : RemoteCall → Except String String) :
    occursBeforeIn (sample_indexer_workflow e svc).1
      RemoteCall.isCreateSkillset RemoteCall.isCreateDataSource ∧
    occursBeforeIn (sample_indexer_workflow e svc).1
      RemoteCall.isCreateDataSource RemoteCall.isCreateIndexer := by
  rcases workflow_shape e svc with
      ⟨err, h1, hw⟩ | ⟨ssn, err, h1, h2, hw⟩ | ⟨ssn, dsn, err, h1, h2, h3, hw⟩ |
      ⟨ssn, dsn, r, err, h1, h2, h3, h4, hw⟩ |
      ⟨ssn, dsn, r, rn, err, h1, h2, h3, h4, h5, hw⟩ |
      ⟨ssn, dsn, r, rn, r2, h1, h2, h3, h4, h5, hw⟩
  · rw [hw]; dsimp only
    refine ⟨?_, ?_⟩ <;>
      (intro i hi hq
       simp only [List.length_cons, List.length_nil] at hi
       interval_cases i <;>
         exact absurd hq (by simp [cS,
           RemoteCall.isCreateDataSource, RemoteCall.isCreateIndexer]))
  · rw [hw]; dsimp only
    refine ⟨?_, ?_⟩
    · intro i hi hq
      simp only [List.length_cons, List.length_nil] at hi
      interval_cases i
      · exact absurd hq (by simp [cS, RemoteCall.isCreateDataSource])
      · exact ⟨0, by simp, by omega, rfl⟩
    · intro i hi hq
      simp only [List.length_cons, List.length_nil] at hi
      interval_cases i <;>
        exact absurd hq (by simp [cS, cD, RemoteCall.isCreateIndexer])
  · rw [hw]; dsimp only
    refine ⟨?_, ?_⟩
    · intro i hi hq
      simp only [List.length_cons, List.length_nil] at hi
      interval_cases i
      · exact absurd hq (by simp [cS, RemoteCall.isCreateDataSource])
      · exact ⟨0, by simp, by omega, rfl⟩
      · exact absurd hq (by simp [cI, RemoteCall.isCreateDataSource])
    · intro i hi hq
      simp only [List.length_cons, List.length_nil] at hi
      interval_cases i
      · exact absurd hq (by simp [cS, RemoteCall.isCreateIndexer])
      · exact absurd hq (by simp [cD, RemoteCall.isCreateIndexer])
      · exact ⟨1, by simp, by omega, rfl⟩
  · rw [hw]; dsimp only
    refine ⟨?_, ?_⟩
    · intro i hi hq
      simp only [List.length_cons, List.length_nil] at hi
      interval_cases i
      · exact absurd hq (by simp [cS, RemoteCall.isCreateDataSource])
      · exact ⟨0, by simp, by omega, rfl⟩
      · exact absurd hq (by simp [cI, RemoteCall.isCreateDataSource])
      · exact absurd hq (by simp [gI, RemoteCall.isCreateDataSource])
    · intro i hi hq
      simp only [List.length_cons, List.length_nil] at hi
      interval_cases i
      · exact absurd hq (by simp [cS, RemoteCall.isCreateIndexer])
      · exact absurd hq (by simp [cD, RemoteCall.isCreateIndexer])
      · exact ⟨1, by simp, by omega, rfl⟩
      · exact absurd hq (by simp [gI, RemoteCall.isCreateIndexer])
  · rw [hw]; dsimp only
    refine ⟨?_, ?_⟩
    · intro i hi hq
      simp only [List.length_cons, List.length_nil] at hi
      interval_cases i
      · exact absurd hq (by simp [cS, RemoteCall.isCreateDataSource])
      · exact ⟨0, by simp, by omega, rfl⟩
      · exact absurd hq (by simp [cI, RemoteCall.isCreateDataSource])
      · exact absurd hq (by simp [gI, RemoteCall.isCreateDataSource])
      · exact absurd hq (by simp [rI, RemoteCall.isCreateDataSource])
    · intro i hi hq
      simp only [List.length_cons, List.length_nil] at hi
      interval_cases i
      · exact absurd hq (by simp [cS, RemoteCall.isCreateIndexer])
      · exact absurd hq (by simp [cD, RemoteCall.isCreateIndexer])
      · exact ⟨1, by simp, by omega, rfl⟩
      · exact absurd hq (by simp [gI, RemoteCall.isCreateIndexer])
      · exact absurd hq (by simp [rI, RemoteCall.isCreateIndexer])
  · rw [hw]; dsimp only
    refine ⟨?_, ?_⟩
    · intro i hi hq
      simp only [List.length_cons, List.length_nil] at hi
      interval_cases i
      · exact absurd hq (by simp [cS, RemoteCall.isCreateDataSource])
      · exact ⟨0, by simp, by omega, rfl⟩
      · exact absurd hq (by simp [cI, RemoteCall.isCreateDataSource])
      · exact absurd hq (by simp [gI, RemoteCall.isCreateDataSource])
      · exact absurd hq (by simp [rI, RemoteCall.isCreateDataSource])
    · intro i hi hq
      simp only [List.length_cons, List.length_nil] at hi
      interval_cases i
      · exact absurd hq (by simp [cS, RemoteCall.isCreateIndexer])
      · exact absurd hq (by simp [cD, RemoteCall.isCreateIndexer])
      · exact ⟨1, by simp, by omega, rfl⟩
      · exact absurd hq (by simp [gI, RemoteCall.isCreateIndexer])
      · exact absurd hq (by simp [rI, RemoteCall.isCreateIndexer])

/-- C6 (amended) witness: the ordering instantiated at the concrete
environment `env0` and the all-succeeding oracle `svcOK`. -/
theorem c6_order_amended_witness :
    occursBeforeIn (sample_indexer_workflow env0 svcOK).1
      RemoteCall.isCreateSkillset RemoteCall.isCreateDataSource ∧
    occursBeforeIn (sample_indexer_workflow env0 svcOK).1
      RemoteCall.isCreateDataSource RemoteCall.isCreateIndexer :=
  c6_order_amended env0 svcOK

/-- C7: whenever a run of `sample_indexer_workflow` ends in an error, the
trace is nonempty, its last call is the one the oracle failed on and the
error of the script is exactly that oracle error, every earlier call completed
successfully (so no call after the failure is ever issued), and no call is
ever issued twice (no retry); the trace contains only the forward creation,
get and run calls, so nothing resembling a rollback is issued. -/
theorem c7_error_propagation (e : ModuleEnv) (svc : RemoteCall → Except String String)
    (err : String) (h : (sample_indexer_workflow e svc).2 = .error err) :
    (sample_indexer_workflow e svc).1 ≠ [] ∧
    (∃ c, (sample_indexer_workflow e svc).1.getLast? = some c ∧ svc c = .error err) ∧
    (∀ i, (hi : i < (sample_indexer_workflow e svc).1.length) →
        i + 1 < (sample_indexer_workflow e svc).1.length →
        ∃ s, svc (sample_indexer_workflow e svc).1[i] = .ok s) ∧
    (sample_indexer_workflow e svc).1.Nodup := by
  rcases workflow_shape e svc with
      ⟨err2, h1, hw⟩ | ⟨ssn, err2, h1, h2, hw⟩ | ⟨ssn, dsn, err2, h1, h2, h3, hw⟩ |
      ⟨ssn, dsn, r, err2, h1, h2, h3, h4, hw⟩ |
      ⟨ssn, dsn, r, rn, err2, h1, h2, h3, h4, h5, hw⟩ |
      ⟨ssn, dsn, r, rn, r2, h1, h2, h3, h4, h5, hw⟩
  · rw [hw] at h
    dsimp only at h
    injection h with hh
    subst hh
    rw [hw]; dsimp only
    refine ⟨by simp, ⟨_, rfl, h1⟩, ?_, by simp⟩
    intro i hi hlt
    simp only [List.length_cons, List.length_nil] at hi hlt
    exfalso; omega
  · rw [hw] at h
    dsimp only at h
    injection h with hh
    subst hh
    rw [hw]; dsimp only
    refine ⟨by simp, ⟨_, rfl, h2⟩, ?_, by simp [cS, cD]⟩
    intro i hi hlt
    simp only [List.length_cons, List.length_nil] at hi hlt
    have hi0 : i = 0 := by omega
    subst hi0
    exact ⟨ssn, h1⟩
  · rw [hw] at h
    dsimp only at h
    injection h with hh
    subst hh
    rw [hw]; dsimp only
    refine ⟨by simp, ⟨_, rfl, h3⟩, ?_, by simp [cS, cD, cI]⟩
    intro i hi hlt
    simp only [List.length_cons, List.length_nil] at hi hlt
    have hi2 : i < 2 := by omega
    interval_cases i
    · exact ⟨ssn, h1⟩
    · exact ⟨dsn, h2⟩
  · rw [hw] at h
    dsimp only at h
    injection h with hh
    subst hh
    rw [hw]; dsimp only
    refine ⟨by simp, ⟨_, rfl, h4⟩, ?_, by simp [cS, cD, cI, gI]⟩
    intro i hi hlt
    simp only [List.length_cons, List.length_nil] at hi hlt
    have hi3 : i < 3 := by omega
    interval_cases i
    · exact ⟨ssn, h1⟩
    · exact ⟨dsn, h2⟩
    · exact ⟨r, h3⟩
  · rw [hw] at h
    dsimp only at h
    injection h with hh
    subst hh
    rw [hw]; dsimp only
    refine ⟨by simp, ⟨_, rfl, h5⟩, ?_, by simp [cS, cD, cI, gI, rI]⟩
    intro i hi hlt
    simp only [List.length_cons, List.length_nil] at hi hlt
    have hi4 : i < 4 := by omega
    interval_cases i
    · exact ⟨ssn, h1⟩
    · exact ⟨dsn, h2⟩
    · exact ⟨r, h3⟩
    · exact ⟨rn, h4⟩
  · rw [hw] at h
    exact absurd h (by simp)

/-- C7 witness: at `env0` against the always-failing oracle `svcFail`, the
run errors and the error-propagation property holds. -/
theorem c7_error_propagation_witness :
    (sample_indexer_workflow env0 svcFail).2 = Except.error "Unauthorized" ∧
    ((sample_indexer_workflow env0 svcFail).1 ≠ [] ∧
     (∃ c, (sample_indexer_workflow env0 svcFail).1.getLast? = some c ∧
        svcFail c = Except.error "Unauthorized") ∧
     (∀ i, (hi : i < (sample_indexer_workflow env0 svcFail).1.length) →
         i + 1 < (sample_indexer_workflow env0 svcFail).1.length →
         ∃ s, svcFail (sample_indexer_workflow env0 svcFail).1[i] = .ok s) ∧
     (sample_indexer_workflow env0 svcFail).1.Nodup) :=
  ⟨rfl, c7_error_propagation env0 svcFail "Unauthorized" rfl⟩

/-- If module initialization succeeds, every required environment variable
was set. -/
theorem loadModuleEnv_ok_requires (env : String → Option String) (me : ModuleEnv)
    (h : loadModuleEnv env = .ok me) :
    ∀ v ∈ requiredEnvVars, ∃ s, env v = some s := by
  simp only [loadModuleEnv] at h
  rcases e1 : env "AZURE_SEARCH_SERVICE_ENDPOINT" with - | s1
  · simp [e1] at h
  simp only [e1] at h
  rcases e2 : env "AZURE_SEARCH_API_KEY" with - | s2
  · simp [e2] at h
  simp only [e2] at h
  rcases e3 : env "AZURE_STORAGE_CONNECTION_STRING" with - | s3
  · simp [e3] at h
  simp only [e3] at h
  rcases e4 : env "AZURE_OPENAI_ENDPOINT" with - | s4
  · simp [e4] at h
  simp only [e4] at h
  rcases e5 : env "AZURE_OPENAI_EMBEDDING_DEPLOYMENT" with - | s5
  · simp [e5] at h
  simp only [e5] at h
  rcases e6 : env "AZURE_OPENAI_EMBEDDING_MODEL" with - | s6
  · simp [e6] at h
  simp only [e6] at h
  rcases e7 : env "AZURE_OPENAI_EMBEDDING_CREDENTIAL" with - | s7
  · simp [e7] at h
  intro v hv
  fin_cases hv
  exacts [⟨s1, e1⟩, ⟨s2, e2⟩, ⟨s3, e3⟩, ⟨s4, e4⟩, ⟨s5, e5⟩, ⟨s6, e6⟩, ⟨s7, e7⟩]

/-- C8: if any of the seven required environment variables is unset, the
script fails during module initialization with a lookup error and issues no
remote call at all. -/
theorem c8_missing_env_var (env : String → Option String)
    (svc : RemoteCall → Except String String) (v : String)
    (hv : v ∈ requiredEnvVars) (hnone : env v = none) :
    (run_script env svc).1 = [] ∧ ∃ msg, (run_script env svc).2 = .error msg := by
  cases hres : loadModuleEnv env with
  | error err =>
      exact ⟨by simp [run_script, hres], err, by simp [run_script, hres]⟩
  | ok me =>
      obtain ⟨s, hs⟩ := loadModuleEnv_ok_requires env me hres v hv
      rw [hnone] at hs
      exact absurd hs (by simp)

/-- C8 witness: with only the service endpoint set, the API key variable is
a required variable that is unset, so the script issues no remote call and
fails with a lookup error. -/
theorem c8_missing_env_var_witness :
    "AZURE_SEARCH_API_KEY" ∈ requiredEnvVars ∧
    envMissingKey "AZURE_SEARCH_API_KEY" = none ∧
    ((run_script envMissingKey svcOK).1 = [] ∧
     ∃ msg, (run_script envMissingKey svcOK).2 = .error msg) :=
  ⟨by decide, by decide,
   c8_missing_env_var envMissingKey svcOK "AZURE_SEARCH_API_KEY" (by decide) (by decide)⟩
